import Mathlib

/-!
Verification of the sharded feature extraction and caching pipeline of
code/models/bert_tree.py (class BERTTree) and of its interaction with
code/models/bert.py (class BERT), as a shallow embedding.

Conventions of the embedding: machine side effects are made explicit
(the on-disk cache is a threaded store value, a raised Python exception is
an Except.error), external collaborators are abstracted at the interface
the source calls them through (the encoder is a function from an example
text to a feature row, the shuffling RNG of to_tf_dataset is a function
argument), and Python name resolution for names that are not locals is
modelled against the list of names actually bound at module level in
bert_tree.py.
-/

namespace BertTree

/-- Python exception values raised by the embedded code paths. -/
inductive PyErr where
  | nameError (name : String)
  | keyError (key : String)
  | encoderError
  | fileNotFoundError (path : String)
deriving DecidableEq

/-- A Python parameter value as stored in the module-level parameter
dictionaries of bert_tree.py (strings, ints, floats as exact rationals,
booleans). -/
inductive PVal where
  | s (v : String)
  | n (v : Int)
  | q (v : Rat)
  | b (v : Bool)
deriving DecidableEq

/-- A Python dict with string keys, as a key-value list. -/
abbrev PyDict := List (String × PVal)

/-- Embeds a Python dict subscript d[k]: the value when the key is present,
KeyError otherwise. -/
def dictGet (d : PyDict) (k : String) : Except PyErr PVal :=
  match d.find? (fun p => p.1 == k) with
  | some p => .ok p.2
  | none => .error (.keyError k)

/-- Embeds the module-level bert_params dict of bert_tree.py lines 10-21. -/
def bert_params : PyDict :=
  [("model", .s "emilyalsentzer/Bio_ClinicalBERT"),
   ("learning_rate", .q (3 / 10000)),
   ("batch_size", .n 1),
   ("epochs", .n 4),
   ("dataset", .s "small"),
   ("freeze_base_layer", .b true),
   ("load_checkpoint", .b false),
   ("save_checkpoints", .b false),
   ("load_cached_dataset", .b true),
   ("save_results", .b true)]

/-- String content of a parameter value; the source only interpolates
values known to be strings into its f-strings, so the other branches are
unreachable there. -/
def PVal.str : PVal → String
  | .s v => v
  | _ => ""

/-- The names bound at module level in bert_tree.py: the imports of lines
1-8, the bert_params dict, and the class itself.  Neither os nor
model_name is among them. -/
def moduleGlobals : List String :=
  ["AutoTokenizer", "AutoConfig", "TFAutoModel", "DataCollatorWithPadding",
   "ExtraTreesClassifier", "RandomForestClassifier",
   "GradientBoostingClassifier", "np", "pickle", "BERT", "evaluate",
   "set_seeds", "bert_params", "BERTTree"]

/-- Embeds Python name resolution for a name that is not a local variable
of the executing method: the name must be bound at module level (builtins
play no role for the names this file resolves), otherwise evaluation
raises NameError at the point of reference. -/
def resolveName (n : String) : Except PyErr Unit :=
  if n ∈ moduleGlobals then .ok () else .error (.nameError n)

/-- One dataset example: a (text, label) pair. -/
abbrev Ex := String × Int

/-- Embeds datasets.Dataset.shard(num_shards, index) as called at
bert_tree.py:73-74.  The call passes no contiguous keyword; in the
releases of the datasets library contemporary with this repository
(before its 3.0 release) the default is contiguous=False, which selects
the examples at positions index, index + num_shards, index + 2*num_shards
and so on.  For index below num_shards, the only calls the source makes
(the loop index ranges over range(SHARDS)), these are exactly the
positions congruent to index modulo num_shards. -/
def shard (num_shards index : Nat) (l : List α) : List α :=
  (l.enum.filter (fun p => p.1 % num_shards == index)).map Prod.snd

/-- Modelled from the spec: the sharding policy the specification
describes, contiguous, disjoint, order-preserving blocks of near-equal
size.  This coincides with datasets.Dataset.shard under contiguous=True
(block of length len/num_shards starting at div*index + min(index, mod),
one element longer for the first len mod num_shards blocks).  Declared
only to compare the claimed policy against the shard function the source
actually invokes. -/
def shard_contiguous (num_shards index : Nat) (l : List α) : List α :=
  let d := l.length / num_shards
  let m := l.length % num_shards
  let start := d * index + min index m
  let stop := start + d + (if index < m then 1 else 0)
  (l.enum.filter (fun p => decide (start ≤ p.1) && decide (p.1 < stop))).map
    Prod.snd

/-- Embeds Dataset.to_tf_dataset as called at bert_tree.py:77-83: the row
order of the produced batched dataset is the row order of the input when
shuffle is false, and a permutation drawn from the RNG when shuffle is
true; the source always passes shuffle=False.  Column selection, the
padding collator and batch_size=32 affect neither which examples appear
nor their order, so they are not modelled. -/
def to_tf_dataset (shuffle : Bool) (rng : List Ex → List Ex) (l : List Ex) :
    List Ex :=
  if shuffle then rng l else l

/-- Embeds the per-shard encoder call of bert_tree.py:85-86: predict runs
the model over the shard in dataset order and the reshape flattens the
structured output of each example into one numeric row.  The composite
per-example map is abstracted as enc on the example text (predict does
not consume the labels); a failure of the underlying call anywhere in the
shard raises, aborting the whole call, which the error propagation
models. -/
def encodeAll (enc : String → Except PyErr F) : List Ex → Except PyErr (List F)
  | [] => .ok []
  | e :: t =>
    match enc e.1 with
    | .error err => .error err
    | .ok r =>
      match encodeAll enc t with
      | .error err => .error err
      | .ok rs => .ok (r :: rs)

/-- The accumulation loop of BERTTree.compute_features (bert_tree.py:72-87)
over a list of shard indices: build each shard, wrap it as an unshuffled
tf dataset, run the encoder over it, and collect the per-shard matrices
in loop order. -/
def computeXs (enc : String → Except PyErr F) (num_shards : Nat)
    (split : List Ex) (rng : List Ex → List Ex) :
    List Nat → Except PyErr (List (List F))
  | [] => .ok []
  | i :: is =>
    match encodeAll enc (to_tf_dataset false rng (shard num_shards i split)) with
    | .error err => .error err
    | .ok X =>
      match computeXs enc num_shards split rng is with
      | .error err => .error err
      | .ok Xs => .ok (X :: Xs)

/-- Embeds BERTTree.compute_features (bert_tree.py:68-92) with the shard
count as a parameter: run the shard loop over range(S), concatenate the
per-shard matrices (np.concatenate, line 89), and build the label vector
from the full, un-sharded split (line 90); return the pair. -/
def compute_features_with (enc : String → Except PyErr F) (S : Nat)
    (split : List Ex) (rng : List Ex → List Ex) :
    Except PyErr (List F × List Int) :=
  match computeXs enc S split rng (List.range S) with
  | .error err => .error err
  | .ok Xs => .ok (Xs.flatten, split.map Prod.snd)

/-- The shard count hard-coded at bert_tree.py:70. -/
def SHARDS : Nat := 10

/-- BERTTree.compute_features exactly as the source fixes it: shard count
SHARDS = 10. -/
def compute_features (enc : String → Except PyErr F) (split : List Ex)
    (rng : List Ex → List Ex) : Except PyErr (List F × List Int) :=
  compute_features_with enc SHARDS split rng

/-- The content of one cache file: a pickled feature matrix or a pickled
label vector.  pickle round-trips the stored object unchanged, so files
hold the values themselves. -/
inductive CacheVal (F : Type) where
  | mat (X : List F)
  | vec (y : List Int)
deriving DecidableEq

/-- The data directory as a file store, newest write first; opening a path
with mode wb truncates, so the most recent write is the one a later read
sees. -/
abbrev Store (F : Type) := List (String × CacheVal F)

/-- Writing one file into the store. -/
def putFile (store : Store F) (path : String) (v : CacheVal F) : Store F :=
  (path, v) :: store

/-- Reading one file from the store, none when the path does not exist. -/
def getFile (store : Store F) (path : String) : Option (CacheVal F) :=
  (store.find? (fun p => p.1 == path)).map Prod.snd

/-- Embeds os.listdir of the data directory: the file names present. -/
def listdir (store : Store F) : List String := store.map Prod.fst

/-- Embeds BERTTree.generate_features (bert_tree.py:94-104); dataset is the
split name, split its contents.  After the features are computed (line
95), the source builds the locals model_name and identifier (lines 97-98,
both well defined) and then evaluates os.path.join at line 100; the
module never imports os, so that reference raises NameError before either
cache file is opened.  The store is threaded explicitly so a partial
write would be observable; on a raise the store is returned as it was. -/
def generate_features (enc : String → Except PyErr F) (dataset : String)
    (split : List Ex) (rng : List Ex → List Ex) (store : Store F) :
    Store F × Except PyErr Unit :=
  match compute_features enc split rng with
  | .error err => (store, .error err)
  | .ok (X, y) =>
    match dictGet bert_params "model" with
    | .error err => (store, .error err)
    | .ok mv =>
      let model_name := ((PVal.str mv).splitOn "/").getLastD ""
      match dictGet bert_params "dataset" with
      | .error err => (store, .error err)
      | .ok dv =>
        let identifier := dataset ++ "_" ++ PVal.str dv ++ "_" ++ model_name
        match resolveName "os" with
        | .error err => (store, .error err)
        | .ok _ =>
          let store := putFile store ("X_feat_" ++ identifier ++ ".pkl") (.mat X)
          let store := putFile store ("y_" ++ identifier ++ ".pkl") (.vec y)
          (store, .ok ())

/-- The classifier loop of BERTTree.train (bert_tree.py:119-121): fit each
classifier of self.params with the same training pair, in list order; a
raise from one fit aborts the loop, so the classifiers after it are not
fitted.  fitFn is the external sklearn fit, taking the classifier and the
two loaded training objects and returning the now-fitted classifier. -/
def fit_classifiers (fitFn : C → CacheVal F → CacheVal F → Except PyErr C)
    (Xt yt : CacheVal F) : List C → Except PyErr (List C)
  | [] => .ok []
  | c :: cs =>
    match fitFn c Xt yt with
    | .error err => .error err
    | .ok fitted =>
      match fit_classifiers fitFn Xt yt cs with
      | .error err => .error err
      | .ok rest => .ok (fitted :: rest)

/-- Embeds BERTTree.train (bert_tree.py:106-121).  Line 108 interpolates
the successful lookup bert_params of key dataset and then the name
model_name, which is neither a local of train nor bound at module level
(it is a local of generate_features), so name resolution raises NameError
there and everything below line 108 is unreachable.  The remainder still
mirrors the source: resolve os, test membership of the expected feature
file in the directory listing, unpickle the cached pair on a hit or call
compute_features on a miss, then run the classifier loop. -/
def train (enc : String → Except PyErr F) (trainSplit : List Ex)
    (rng : List Ex → List Ex)
    (fitFn : C → CacheVal F → CacheVal F → Except PyErr C)
    (classifiers : List C) (store : Store F) : Except PyErr (List C) :=
  match dictGet bert_params "dataset" with
  | .error err => .error err
  | .ok dv =>
    match resolveName "model_name" with
    | .error err => .error err
    | .ok _ =>
      -- unreachable from here on: model_name is unbound, so the value
      -- interpolated below is arbitrary
      let model_name := ""
      let identifier := PVal.str dv ++ "_" ++ model_name
      match resolveName "os" with
      | .error err => .error err
      | .ok _ =>
        let xy : Except PyErr (CacheVal F × CacheVal F) :=
          if ("X_feat_train_" ++ identifier ++ ".pkl") ∈ listdir store then
            match getFile store ("X_feat_train_" ++ identifier ++ ".pkl") with
            | none => .error (.fileNotFoundError ("X_feat_train_" ++ identifier ++ ".pkl"))
            | some Xv =>
              match getFile store ("y_train_" ++ identifier ++ ".pkl") with
              | none => .error (.fileNotFoundError ("y_train_" ++ identifier ++ ".pkl"))
              | some yv => .ok (Xv, yv)
          else
            match compute_features enc trainSplit rng with
            | .error err => .error err
            | .ok (X, y) => .ok (.mat X, .vec y)
        match xy with
        | .error err => .error err
        | .ok (Xt, yt) => fit_classifiers fitFn Xt yt classifiers

/-- The ten parameter values BERT.__init__ reads (bert.py:27-36). -/
structure BERTParams where
  model_id : PVal
  dataset_id : PVal
  batch_size : PVal
  learning_rate : PVal
  freeze_bert : PVal
  freeze_bert_encoder : PVal
  load_checkpoint_from : PVal
  save_checkpoints : PVal
  epochs : PVal
  save_results : PVal

/-- Embeds the dictionary reads of BERT.__init__ (bert.py:27-36) in source
order; the first missing key raises KeyError.  The rest of the
constructor (tokenizer and model loading, compile, results directory
creation) is external and is never reached for bert_params, whose lookups
fail at the very first read. -/
def BERT_init (params : PyDict) : Except PyErr BERTParams := do
  let model_id ← dictGet params "model_id"
  let dataset_id ← dictGet params "dataset_id"
  let batch_size ← dictGet params "batch_size"
  let learning_rate ← dictGet params "learning_rate"
  let freeze_bert ← dictGet params "freeze_bert"
  let freeze_bert_encoder ← dictGet params "freeze_bert_encoder"
  let load_checkpoint_from ← dictGet params "load_checkpoint_from"
  let save_checkpoints ← dictGet params "save_checkpoints"
  let epochs ← dictGet params "epochs"
  let save_results ← dictGet params "save_results"
  return ⟨model_id, dataset_id, batch_size, learning_rate, freeze_bert,
    freeze_bert_encoder, load_checkpoint_from, save_checkpoints, epochs,
    save_results⟩

/-- Embeds BERTTree.load_data (bert_tree.py:36-43): construct
BERT(bert_params) and only then load and tokenize the dataset.  Dataset
loading (bert.load_data and the tokenizer map, external calls into code
outside this module) is abstracted as loadData, reached only if the BERT
construction succeeds. -/
def BERTTree_load_data (loadData : BERTParams → Except PyErr D) :
    Except PyErr D :=
  match BERT_init bert_params with
  | .error err => .error err
  | .ok b => loadData b

/-- The concrete 4-example split of the specification scenario. -/
def scenarioSplit : List Ex := [("a", 0), ("b", 1), ("c", 0), ("d", 1)]

/-- An 11-example split with pairwise distinct texts, large enough that
none of the 10 shards of the source is empty. -/
def elevenSplit : List Ex :=
  [("t0", 0), ("t1", 1), ("t2", 0), ("t3", 1), ("t4", 0), ("t5", 1),
   ("t6", 0), ("t7", 1), ("t8", 0), ("t9", 1), ("t10", 0)]

/-- Building the per-shard tf dataset with shuffling disabled leaves the
shard unchanged, whatever the RNG would do. -/
theorem to_tf_dataset_false (rng : List Ex → List Ex) (l : List Ex) :
    to_tf_dataset false rng l = l := rfl

/-- A successful encoder pass over a shard returns one feature row per
example of the shard. -/
theorem encodeAll_ok_length {F : Type} (enc : String → Except PyErr F) :
    ∀ (l : List Ex) (r : List F), encodeAll enc l = .ok r →
      r.length = l.length := by
  intro l
  induction l with
  | nil =>
    intro r h
    simp only [encodeAll] at h
    cases h
    rfl
  | cons e t ih =>
    intro r h
    simp only [encodeAll] at h
    cases he : enc e.1 with
    | error err => simp only [he] at h; cases h
    | ok v =>
      simp only [he] at h
      cases ht : encodeAll enc t with
      | error err => simp only [ht] at h; cases h
      | ok rs =>
        simp only [ht, Except.ok.injEq] at h
        subst h
        simp [ih rs ht]

/-- The shard loop never consults the shuffling RNG: every per-shard
dataset is built with shuffle disabled. -/
theorem computeXs_rng {F : Type} (enc : String → Except PyErr F) (S : Nat)
    (split : List Ex) (rng rng' : List Ex → List Ex) :
    ∀ is : List Nat,
      computeXs enc S split rng is = computeXs enc S split rng' is := by
  intro is
  induction is with
  | nil => rfl
  | cons i t ih => simp only [computeXs, to_tf_dataset_false, ih]

/-- A successful shard loop produces per-shard matrices whose row counts
are exactly the shard sizes, in loop order. -/
theorem computeXs_ok_lengths {F : Type} (enc : String → Except PyErr F)
    (S : Nat) (split : List Ex) (rng : List Ex → List Ex) :
    ∀ (is : List Nat) (Xs : List (List F)),
      computeXs enc S split rng is = .ok Xs →
      Xs.map List.length = is.map (fun i => (shard S i split).length) := by
  intro is
  induction is with
  | nil =>
    intro Xs h
    simp only [computeXs] at h
    cases h
    rfl
  | cons i t ih =>
    intro Xs h
    simp only [computeXs] at h
    cases he : encodeAll enc (to_tf_dataset false rng (shard S i split)) with
    | error err => simp only [he] at h; cases h
    | ok X =>
      simp only [he] at h
      cases ht : computeXs enc S split rng t with
      | error err => simp only [ht] at h; cases h
      | ok Xs' =>
        simp only [ht, Except.ok.injEq] at h
        subst h
        have hX := encodeAll_ok_length enc _ _ he
        rw [to_tf_dataset_false] at hX
        simp [hX, ih Xs' ht]

/-- If the encoder call fails for a shard whose index the loop visits, the
whole loop fails (with the error of the first failing shard). -/
theorem computeXs_error_of_mem {F : Type} (enc : String → Except PyErr F)
    (S : Nat) (split : List Ex) (rng : List Ex → List Ex) :
    ∀ (is : List Nat) (i : Nat) (err : PyErr), i ∈ is →
      encodeAll enc (to_tf_dataset false rng (shard S i split)) = .error err →
      ∃ e, computeXs enc S split rng is = .error e := by
  intro is
  induction is with
  | nil => intro i err hmem _; cases hmem
  | cons j t ih =>
    intro i err hmem hfail
    cases he : encodeAll enc (to_tf_dataset false rng (shard S j split)) with
    | error e => exact ⟨e, by simp only [computeXs, he]⟩
    | ok X =>
      rcases List.mem_cons.mp hmem with h | h
      · subst h
        rw [he] at hfail
        cases hfail
      · obtain ⟨e, hcomp⟩ := ih i err h hfail
        exact ⟨e, by simp only [computeXs, he, hcomp]⟩

/-- Partition lemma: filtering a list by each key value below S and
concatenating the pieces in key order recovers the list up to
permutation, provided every key is below S. -/
theorem flatten_filter_perm {β : Type} (k : β → Nat) :
    ∀ (S : Nat) (l : List β), (∀ b ∈ l, k b < S) →
      List.Perm
        (((List.range S).map (fun i => l.filter (fun b => k b == i))).flatten)
        l := by
  intro S
  induction S with
  | zero =>
    intro l hl
    cases l with
    | nil => simp
    | cons b t => exact absurd (hl b (List.mem_cons_self b t)) (Nat.not_lt_zero _)
  | succ S ih =>
    intro l hl
    rw [List.range_succ, List.map_append, List.flatten_append]
    simp only [List.map_cons, List.map_nil, List.flatten_cons, List.flatten_nil,
      List.append_nil]
    have hmap : ∀ i ∈ List.range S,
        l.filter (fun b => k b == i) =
          (l.filter (fun b => !(k b == S))).filter (fun b => k b == i) := by
      intro i hi
      have hiS : i < S := List.mem_range.mp hi
      rw [List.filter_filter]
      refine List.filter_congr ?_
      intro b _
      rcases eq_or_ne (k b) i with h | h
      · have hne : ¬(i = S) := by omega
        simp [h, hne]
      · simp [h]
    rw [List.map_congr_left hmap]
    have hbound : ∀ b ∈ l.filter (fun b => !(k b == S)), k b < S := by
      intro b hb
      obtain ⟨h2, h1⟩ := List.mem_filter.mp hb
      have h3 := hl b h2
      have h4 : ¬(k b = S) := by simpa using h1
      omega
    have ihp := ih (l.filter (fun b => !(k b == S))) hbound
    refine List.Perm.trans (List.Perm.append_right _ ihp) ?_
    exact List.Perm.trans List.perm_append_comm (List.filter_append_perm _ l)

/-- The shards the source builds partition the split: the concatenation of
shard 0 through S-1 is a permutation of the split, so every example
appears exactly once across the shards. -/
theorem shards_perm (S : Nat) (hS : 0 < S) (split : List Ex) :
    List.Perm (((List.range S).map (fun i => shard S i split)).flatten)
      split := by
  have h := flatten_filter_perm (fun p : Nat × Ex => p.1 % S) S split.enum
    (fun b _ => Nat.mod_lt _ hS)
  have h2 := List.Perm.map Prod.snd h
  rw [List.map_flatten, List.map_map, List.enum_map_snd] at h2
  simpa [shard, Function.comp] using h2

/-- Claim C1 (code bug evidence): the source shards with the strided
library default, so on the 4-example scenario split with shard count 2,
shard 0 holds the examples a and c and shard 1 holds b and d, and the
returned feature rows appear in the order a, c, b, d while the label
vector keeps the original order 0, 1, 0, 1 — row 1 no longer corresponds
to label 1.  The contiguous policy the claim describes (modelled by
shard_contiguous) would instead give the claimed shards. -/
theorem c1_strided_sharding_misorders_rows :
    shard 2 0 scenarioSplit = [("a", 0), ("c", 0)] ∧
    shard 2 1 scenarioSplit = [("b", 1), ("d", 1)] ∧
    compute_features_with (fun s => (.ok s : Except PyErr String)) 2
      scenarioSplit id = .ok (["a", "c", "b", "d"], [0, 1, 0, 1]) ∧
    shard_contiguous 2 0 scenarioSplit = [("a", 0), ("b", 1)] ∧
    shard_contiguous 2 1 scenarioSplit = [("c", 0), ("d", 1)] ∧
    (["a", "c", "b", "d"] : List String) ≠ ["a", "b", "c", "d"] :=
  ⟨rfl, rfl, rfl, rfl, rfl, by decide⟩

/-- Claim C2 (code bug evidence): on an 11-example split the extraction
with shard count 1 returns the rows in the original order t0 through t10,
while the extraction of the source with its 10 strided shards returns t10
as row 1; the two feature matrices differ, so the shard count does alter
the final row order. -/
theorem c2_shard_count_changes_rows :
    compute_features_with (fun s => (.ok s : Except PyErr String)) 1
      elevenSplit id =
      .ok (["t0", "t1", "t2", "t3", "t4", "t5", "t6", "t7", "t8", "t9", "t10"],
        [0, 1, 0, 1, 0, 1, 0, 1, 0, 1, 0]) ∧
    compute_features (fun s => (.ok s : Except PyErr String)) elevenSplit id =
      .ok (["t0", "t10", "t1", "t2", "t3", "t4", "t5", "t6", "t7", "t8", "t9"],
        [0, 1, 0, 1, 0, 1, 0, 1, 0, 1, 0]) ∧
    (["t0", "t1", "t2", "t3", "t4", "t5", "t6", "t7", "t8", "t9", "t10"] :
        List String) ≠
      ["t0", "t10", "t1", "t2", "t3", "t4", "t5", "t6", "t7", "t8", "t9"] :=
  ⟨rfl, rfl, by decide⟩

/-- Claim C3: for every split, every positive shard count, every encoder
and every RNG, a successful extraction returns a feature matrix with
exactly one row per example of the split, together with the label vector
of the full un-sharded split (hence of the same length, in original
order); and the shards the loop processes cover every example of the
split exactly once. -/
theorem c3_matrix_covers_split {F : Type} (enc : String → Except PyErr F)
    (S : Nat) (split : List Ex) (rng : List Ex → List Ex) (X : List F)
    (y : List Int) (hS : 0 < S)
    (h : compute_features_with enc S split rng = .ok (X, y)) :
    X.length = split.length ∧ y = split.map Prod.snd ∧
      List.Perm (((List.range S).map (fun i => shard S i split)).flatten)
        split := by
  unfold compute_features_with at h
  cases hc : computeXs enc S split rng (List.range S) with
  | error err => rw [hc] at h; cases h
  | ok Xs =>
    rw [hc] at h
    simp only [Except.ok.injEq, Prod.mk.injEq] at h
    obtain ⟨hX, hy⟩ := h
    subst hX
    subst hy
    refine ⟨?_, rfl, shards_perm S hS split⟩
    have hlen := computeXs_ok_lengths enc S split rng (List.range S) Xs hc
    have hperm := shards_perm S hS split
    calc Xs.flatten.length
        = (Xs.map List.length).sum := by rw [List.length_flatten]
      _ = ((List.range S).map (fun i => (shard S i split).length)).sum := by
          rw [hlen]
      _ = (((List.range S).map (fun i => shard S i split)).map
            List.length).sum := by rw [List.map_map]; rfl
      _ = (((List.range S).map (fun i => shard S i split)).flatten).length := by
          rw [List.length_flatten]
      _ = split.length := hperm.length_eq

/-- Witness for claim C3 at the 4-example scenario split with 2 shards and
the identity encoder. -/
theorem c3_matrix_covers_split_witness :
    (0 < 2 ∧
      compute_features_with (fun s => (.ok s : Except PyErr String)) 2
        scenarioSplit id = .ok (["a", "c", "b", "d"], [0, 1, 0, 1])) ∧
    ((["a", "c", "b", "d"] : List String).length = scenarioSplit.length ∧
      ([0, 1, 0, 1] : List Int) = scenarioSplit.map Prod.snd ∧
      List.Perm
        (((List.range 2).map (fun i => shard 2 i scenarioSplit)).flatten)
        scenarioSplit) :=
  ⟨⟨by decide, rfl⟩,
    c3_matrix_covers_split (fun s => (.ok s : Except PyErr String)) 2
      scenarioSplit id _ _ (by decide) rfl⟩

/-- Claim C4 (code bug evidence): the cache round trip can never execute.
With the always-succeeding identity encoder (so that extraction is not
the failing step), for every split name, store, fit function and
classifier list: generate_features raises NameError for the unbound name
os with the store returned unchanged, so the put never persists anything;
and train raises NameError for the unbound name model_name, so the
read-back of the pair never happens either. -/
theorem c4_cache_roundtrip_impossible :
    ∀ (dataset : String) (store : Store String)
      (fitFn : Unit → CacheVal String → CacheVal String → Except PyErr Unit)
      (cs : List Unit),
      generate_features (fun s => .ok s) dataset elevenSplit id store =
        (store, .error (.nameError "os")) ∧
      train (fun s => .ok s) elevenSplit id fitFn cs store =
        .error (.nameError "model_name") :=
  fun _ _ _ _ => ⟨rfl, rfl⟩

/-- Claim C5 (code bug evidence): train never short-circuits through the
cache and never reaches the extractor either.  Whatever the encoder, the
store contents, the split and the classifiers, it raises NameError for
the unbound name model_name while building the identifier of line 108,
and its result is independent of both the encoder and the store, so
neither a cache load nor a feature recomputation ever occurs. -/
theorem c5_train_no_cache_short_circuit {F C : Type} :
    ∀ (enc enc' : String → Except PyErr F) (split : List Ex)
      (rng : List Ex → List Ex)
      (fitFn : C → CacheVal F → CacheVal F → Except PyErr C) (cs : List C)
      (store store' : Store F),
      train enc split rng fitFn cs store = .error (.nameError "model_name") ∧
      train enc split rng fitFn cs store =
        train enc' split rng fitFn cs store' :=
  fun _ _ _ _ _ _ _ _ => ⟨rfl, rfl⟩

/-- Claim C6: extraction failure is atomic.  If the encoder call fails on
any of the 10 shards of the source, compute_features returns an error and
never a matrix (no partial result from the shards already processed), and
generate_features returns with the cache store exactly as it was — no
partial cache write; the single pass over range(SHARDS) is the only
attempt, so no retry happens. -/
theorem c6_failure_atomicity {F : Type} (enc : String → Except PyErr F)
    (dataset : String) (split : List Ex) (rng : List Ex → List Ex)
    (store : Store F) (i : Nat) (err : PyErr) (hi : i < SHARDS)
    (hfail : encodeAll enc (to_tf_dataset false rng (shard SHARDS i split)) =
      .error err) :
    (∃ e, compute_features enc split rng = .error e) ∧
    (∀ X y, compute_features enc split rng ≠ .ok (X, y)) ∧
    (∃ e, generate_features enc dataset split rng store =
      (store, .error e)) := by
  obtain ⟨e, hc⟩ := computeXs_error_of_mem enc SHARDS split rng
    (List.range SHARDS) i err (List.mem_range.mpr hi) hfail
  refine ⟨⟨e, ?_⟩, ?_, ⟨e, ?_⟩⟩
  · unfold compute_features compute_features_with
    rw [hc]
  · intro X y hok
    unfold compute_features compute_features_with at hok
    rw [hc] at hok
    cases hok
  · unfold generate_features compute_features compute_features_with
    rw [hc]

/-- Witness for claim C6: an encoder failing exactly on the text t3, which
shard 3 of the 11-example split contains. -/
theorem c6_failure_atomicity_witness :
    (3 < SHARDS ∧
      encodeAll
        (fun s => if s == "t3" then .error .encoderError
          else (.ok s : Except PyErr String))
        (to_tf_dataset false id (shard SHARDS 3 elevenSplit)) =
        .error .encoderError) ∧
    ((∃ e, compute_features
        (fun s => if s == "t3" then .error .encoderError
          else (.ok s : Except PyErr String)) elevenSplit id = .error e) ∧
      (∀ X y, compute_features
        (fun s => if s == "t3" then .error .encoderError
          else (.ok s : Except PyErr String)) elevenSplit id ≠ .ok (X, y)) ∧
      (∃ e, generate_features
        (fun s => if s == "t3" then .error .encoderError
          else (.ok s : Except PyErr String)) "train" elevenSplit id [] =
        ([], .error e))) :=
  ⟨⟨by decide, rfl⟩,
    c6_failure_atomicity _ "train" elevenSplit id [] 3 .encoderError
      (by decide) rfl⟩

/-- Claim C7: sharding and batch construction are deterministic.  Shard
assignment is a pure function of the split and the shard count, every
per-shard dataset is built with shuffling disabled, and therefore the
whole extraction is independent of the shuffling RNG: two runs on the
same split with the same shard count give identical results, row order
included. -/
theorem c7_extraction_deterministic {F : Type} (enc : String → Except PyErr F)
    (S : Nat) (split : List Ex) (rng rng' : List Ex → List Ex) :
    compute_features_with enc S split rng =
      compute_features_with enc S split rng' := by
  unfold compute_features_with
  rw [computeXs_rng enc S split rng rng' (List.range S)]

/-- Claim C8 (code bug evidence): no classifier is ever fitted.  train
raises NameError for the unbound name model_name before its classifier
loop, and its result does not depend on the classifier list at all, so in
particular the classifiers are not fitted in list order and a fit error
is never what aborts the run. -/
theorem c8_classifiers_never_fitted {F C : Type} :
    ∀ (enc : String → Except PyErr F) (split : List Ex)
      (rng : List Ex → List Ex)
      (fitFn : C → CacheVal F → CacheVal F → Except PyErr C)
      (cs cs' : List C) (store : Store F),
      train enc split rng fitFn cs store = .error (.nameError "model_name") ∧
      train enc split rng fitFn cs store =
        train enc split rng fitFn cs' store :=
  fun _ _ _ _ _ _ _ => ⟨rfl, rfl⟩

/-- The classifier loop in isolation (were line 108 of the source
repaired): a successful pass fits exactly the listed classifiers, in list
order, each against the same training pair and independently of the
others. -/
theorem fit_classifiers_in_order {F C : Type}
    (fitFn : C → CacheVal F → CacheVal F → Except PyErr C)
    (Xt yt : CacheVal F) :
    ∀ (cs rs : List C), fit_classifiers fitFn Xt yt cs = .ok rs →
      List.Forall₂ (fun c r => fitFn c Xt yt = .ok r) cs rs := by
  intro cs
  induction cs with
  | nil =>
    intro rs h
    simp only [fit_classifiers] at h
    cases h
    exact .nil
  | cons c t ih =>
    intro rs h
    simp only [fit_classifiers] at h
    cases hf : fitFn c Xt yt with
    | error e => simp only [hf] at h; cases h
    | ok fc =>
      simp only [hf] at h
      cases hr : fit_classifiers fitFn Xt yt t with
      | error e => simp only [hr] at h; cases h
      | ok rest =>
        simp only [hr, Except.ok.injEq] at h
        subst h
        exact .cons hf (ih rest hr)

/-- Counterexample to claim C9 as stated: the NameError train raises is
for the unbound name model_name of line 108, not at the os.listdir
reference of line 109, which is never reached; and a generate_features
call whose extraction fails propagates that failure instead of reaching
the os.path.join reference. -/
theorem c9_counterexample :
    train (fun s => (.ok s : Except PyErr String)) elevenSplit id
      (fun (c : Unit) _ _ => .ok c) [] [] = .error (.nameError "model_name") ∧
    PyErr.nameError "model_name" ≠ PyErr.nameError "os" ∧
    generate_features (fun _ => (.error .encoderError : Except PyErr String))
      "train" elevenSplit id [] = ([], .error .encoderError) ∧
    PyErr.encoderError ≠ PyErr.nameError "os" :=
  ⟨rfl, by decide, rfl, by decide⟩

/-- Claim C9 amended: the module never imports os.  Whenever the feature
computation succeeds, generate_features raises NameError at its first
os.path.join reference before any cache file is written (the store comes
back unchanged); and every call to train raises NameError at its unbound
model_name reference on line 108, before even reaching os.listdir; the
cache put can never complete in this module as written. -/
theorem c9_amended {F C : Type} (enc : String → Except PyErr F)
    (dataset : String) (split : List Ex) (rng : List Ex → List Ex)
    (store : Store F)
    (fitFn : C → CacheVal F → CacheVal F → Except PyErr C) (cs : List C)
    (X : List F) (y : List Int)
    (h : compute_features enc split rng = .ok (X, y)) :
    "os" ∉ moduleGlobals ∧
    generate_features enc dataset split rng store =
      (store, .error (.nameError "os")) ∧
    train enc split rng fitFn cs store = .error (.nameError "model_name") := by
  refine ⟨by decide, ?_, rfl⟩
  unfold generate_features
  rw [h]
  rfl

/-- Witness for the amended claim C9 at the 11-example split with the
identity encoder. -/
theorem c9_amended_witness :
    "os" ∉ moduleGlobals ∧
    generate_features (fun s => (.ok s : Except PyErr String)) "train"
      elevenSplit id [] = ([], .error (.nameError "os")) ∧
    train (fun s => (.ok s : Except PyErr String)) elevenSplit id
      (fun (c : Unit) _ _ => .ok c) [] [] = .error (.nameError "model_name") :=
  c9_amended (fun s => (.ok s : Except PyErr String)) "train" elevenSplit id
    [] (fun (c : Unit) _ _ => .ok c) []
    ["t0", "t10", "t1", "t2", "t3", "t4", "t5", "t6", "t7", "t8", "t9"]
    [0, 1, 0, 1, 0, 1, 0, 1, 0, 1, 0] rfl

/-- Claim C10: bert_params lacks every key BERT.__init__ reads (it holds
model, dataset, freeze_base_layer and load_checkpoint where BERT expects
model_id, dataset_id, freeze_bert, freeze_bert_encoder and
load_checkpoint_from), so constructing BERT(bert_params) fails at its
very first lookup with KeyError for model_id, and BERTTree.load_data
therefore fails before any dataset is loaded, whatever the external
dataset loader would return. -/
theorem c10_load_data_keyerror :
    ∀ (D : Type) (loadData : BERTParams → Except PyErr D),
      BERTTree_load_data loadData = .error (.keyError "model_id") ∧
      BERT_init bert_params = .error (.keyError "model_id") ∧
      dictGet bert_params "model_id" = .error (.keyError "model_id") ∧
      dictGet bert_params "dataset_id" = .error (.keyError "dataset_id") ∧
      dictGet bert_params "freeze_bert" = .error (.keyError "freeze_bert") ∧
      dictGet bert_params "freeze_bert_encoder" =
        .error (.keyError "freeze_bert_encoder") ∧
      dictGet bert_params "load_checkpoint_from" =
        .error (.keyError "load_checkpoint_from") ∧
      dictGet bert_params "model" =
        .ok (.s "emilyalsentzer/Bio_ClinicalBERT") ∧
      dictGet bert_params "dataset" = .ok (.s "small") ∧
      dictGet bert_params "freeze_base_layer" = .ok (.b true) ∧
      dictGet bert_params "load_checkpoint" = .ok (.b false) :=
  fun _ _ => ⟨rfl, rfl, rfl, rfl, rfl, rfl, rfl, rfl, rfl, rfl, rfl⟩

end BertTree
